import Mathlib

/-!
Shallow embedding of the meal-prep analytics engine: the nutrition
calculator module (BMR/TDEE, meal and daily nutrition aggregation,
nutrition reports) and the budget tracker projection functions.
Numbers are exact rationals; JS `Math.round` is floor (x + 1/2).
JS objects with optional keys are records with `Option` fields, and
JS truthiness tests on those fields are modelled explicitly (absent,
0 and "" are falsy).
-/

namespace MealPrep

/-- JS `Math.round`: nearest integer, halves toward positive infinity. -/
def jsRound (q : ℚ) : ℤ := ⌊q + 1/2⌋

/-- `Math.round(x * 10) / 10`: round to one decimal place. -/
def round1 (q : ℚ) : ℚ := (jsRound (q * 10) : ℚ) / 10

/-- JS `String.prototype.toLowerCase` restricted to ASCII data (the
gender strings the program compares are ASCII). -/
def jsToLower (s : String) : String := String.mk (s.data.map Char.toLower)

/-- A person record; `none` is an absent field. -/
structure Person where
  gender : Option String
  weight : Option ℚ
  height : Option ℚ
  age : Option ℚ
  weightUnit : String
  heightUnit : String
  activityLevel : String

/-- JS truthiness of a possibly absent numeric field: absent and 0 are falsy. -/
def truthyNum : Option ℚ → Bool
  | none => false
  | some q => q != 0

/-- JS truthiness of a possibly absent string field: absent and "" are falsy. -/
def truthyStr : Option String → Bool
  | none => false
  | some s => s != ""

/-- `calculateBMR`: Harris-Benedict with lb to kg and inch to cm
normalization.  On missing required data the thrown error is caught in
this very function (ErrorHandler.handleError only logs and touches the
DOM, it returns normally), and 0 is returned. -/
def calculateBMR (person : Person) : ℤ :=
  if truthyStr person.gender && truthyNum person.weight &&
     truthyNum person.height && truthyNum person.age then
    let weight := if person.weightUnit = "lb"
      then person.weight.getD 0 * 0.453592 else person.weight.getD 0
    let height := if person.heightUnit = "in"
      then person.height.getD 0 * 2.54 else person.height.getD 0
    let age := person.age.getD 0
    let bmr : ℚ :=
      if jsToLower (person.gender.getD "") = "male" then
        88.362 + 13.397 * weight + 4.799 * height - 5.677 * age
      else
        447.593 + 9.247 * weight + 3.098 * height - 4.330 * age
    jsRound bmr
  else
    0

/-- `ACTIVITY_MULTIPLIERS[level] || ACTIVITY_MULTIPLIERS.MODERATE`. -/
def activityMultiplier (level : String) : ℚ :=
  if level = "SEDENTARY" then 1.2
  else if level = "LIGHT" then 1.375
  else if level = "MODERATE" then 1.55
  else if level = "ACTIVE" then 1.725
  else if level = "VERY_ACTIVE" then 1.9
  else 1.55

/-- `calculateTDEE`: BMR times the activity multiplier, rounded. -/
def calculateTDEE (bmr : ℤ) (activityLevel : String) : ℤ :=
  jsRound ((bmr : ℚ) * activityMultiplier activityLevel)

/-- `calculateDailyCalorieNeeds`: composition of BMR and TDEE.  The
source wraps the body in try/catch returning 2000, but neither callee
can throw (each catches its own errors and ErrorHandler returns
normally), so that catch branch is dead code and does not appear in
the embedding. -/
def calculateDailyCalorieNeeds (person : Person) : ℤ :=
  calculateTDEE (calculateBMR person) person.activityLevel

/-- A JS food or entry id, either numeric or string valued. -/
inductive JsId where
  | num (n : ℤ)
  | str (s : String)
deriving DecidableEq

/-- `id.toString()`: the string coercion both sides of the tolerant
id comparison run through. -/
def JsId.toStr : JsId → String
  | .num n => toString n
  | .str s => s

/-- A food item of the food database.  The four macro fields are
required; micros and cost are optional keys. -/
structure FoodItem where
  id : JsId
  calories : ℚ
  protein : ℚ
  carbs : ℚ
  fat : ℚ
  fiber : Option ℚ
  sodium : Option ℚ
  calcium : Option ℚ
  iron : Option ℚ
  vitaminA : Option ℚ
  vitaminC : Option ℚ
  costPerServing : Option ℚ
deriving DecidableEq

/-- A meal entry.  `servings` is `some q` when `parseFloat` of the
stored value yields the number `q`, and `none` when the value is
absent or does not parse (NaN). -/
structure MealItem where
  foodId : JsId
  servings : Option ℚ
deriving DecidableEq

/-- `parseFloat(item.servings) || 1`: absent or unparsable or zero
servings become 1; any other parsed number (negative included) is
used as is. -/
def resolveServings : Option ℚ → ℚ
  | none => 1
  | some q => if q = 0 then 1 else q

/-- `foodDatabase.find(f => f.id.toString() === item.foodId.toString())`. -/
def findFood (db : List FoodItem) (fid : JsId) : Option FoodItem :=
  db.find? (fun f => f.id.toStr == fid.toStr)

/-- The meal/daily nutrition totals with every key present. -/
structure NutritionTotals where
  calories : ℚ
  protein : ℚ
  carbs : ℚ
  fat : ℚ
  fiber : ℚ
  sodium : ℚ
  calcium : ℚ
  iron : ℚ
  vitaminA : ℚ
  vitaminC : ℚ
  cost : ℚ
deriving DecidableEq

/-- The raw JS totals object: a key can be absent (`none`). -/
structure JsTotals where
  calories : Option ℚ
  protein : Option ℚ
  carbs : Option ℚ
  fat : Option ℚ
  fiber : Option ℚ
  sodium : Option ℚ
  calcium : Option ℚ
  iron : Option ℚ
  vitaminA : Option ℚ
  vitaminC : Option ℚ
  cost : Option ℚ
deriving DecidableEq

def zeroTotals : NutritionTotals := ⟨0, 0, 0, 0, 0, 0, 0, 0, 0, 0, 0⟩

def addTotals (a b : NutritionTotals) : NutritionTotals :=
  ⟨a.calories + b.calories, a.protein + b.protein, a.carbs + b.carbs,
   a.fat + b.fat, a.fiber + b.fiber, a.sodium + b.sodium,
   a.calcium + b.calcium, a.iron + b.iron, a.vitaminA + b.vitaminA,
   a.vitaminC + b.vitaminC, a.cost + b.cost⟩

def roundAll (t : NutritionTotals) : NutritionTotals :=
  ⟨round1 t.calories, round1 t.protein, round1 t.carbs, round1 t.fat,
   round1 t.fiber, round1 t.sodium, round1 t.calcium, round1 t.iron,
   round1 t.vitaminA, round1 t.vitaminC, round1 t.cost⟩

/-- View a fully-present totals value as a JS object. -/
def toJsObj (t : NutritionTotals) : JsTotals :=
  ⟨some t.calories, some t.protein, some t.carbs, some t.fat,
   some t.fiber, some t.sodium, some t.calcium, some t.iron,
   some t.vitaminA, some t.vitaminC, some t.cost⟩

/-- The object literal returned by the catch branches of
`calculateMealNutrition` and `calculateDailyNutrition`: only
calories, protein, carbs, fat, fiber and cost are present. -/
def errTotals : JsTotals :=
  ⟨some 0, some 0, some 0, some 0, some 0, none, none, none, none, none, some 0⟩

/-- `if (food.fiber) totals.fiber += food.fiber * servings`: the
contribution of an optional food field, guarded by JS truthiness. -/
def microAdd (o : Option ℚ) (servings : ℚ) : ℚ :=
  match o with
  | none => 0
  | some v => if v = 0 then 0 else v * servings

/-- The totals contributed by one meal entry: zero when its food id
has no match, otherwise every field of the food times the resolved
servings. -/
def entryContribution (db : List FoodItem) (item : MealItem) : NutritionTotals :=
  match findFood db item.foodId with
  | none => zeroTotals
  | some food =>
    let s := resolveServings item.servings
    ⟨food.calories * s, food.protein * s, food.carbs * s, food.fat * s,
     microAdd food.fiber s, microAdd food.sodium s, microAdd food.calcium s,
     microAdd food.iron s, microAdd food.vitaminA s, microAdd food.vitaminC s,
     microAdd food.costPerServing s⟩

/-- The unrounded accumulation loop of `calculateMealNutrition`. -/
def aggregateEntriesRaw (items : List MealItem) (db : List FoodItem) : NutritionTotals :=
  items.foldl (fun acc it => addTotals acc (entryContribution db it)) zeroTotals

/-- `calculateMealNutrition(mealItems, foodDatabase)`.  A null item
list or an empty one returns the zero-filled full object before the
database is ever touched; a null database with a nonempty item list
throws inside the loop (`foodDatabase.find` is not a function) and the
catch returns the six-key object literal; otherwise the entries are
accumulated and every key is rounded to one decimal at the end. -/
def calculateMealNutrition (mealItems : Option (List MealItem))
    (foodDatabase : Option (List FoodItem)) : JsTotals :=
  match mealItems with
  | none => toJsObj zeroTotals
  | some items =>
    if items.isEmpty then toJsObj zeroTotals
    else
      match foodDatabase with
      | none => errTotals
      | some db => toJsObj (roundAll (aggregateEntriesRaw items db))

/-- A day meal set: one optional entry list per meal slot. -/
structure DayMealSet where
  breakfast : Option (List MealItem)
  lunch : Option (List MealItem)
  dinner : Option (List MealItem)
  snacks : Option (List MealItem)

/-- `dailyTotals[key] += mealNutrition[key] || 0`. -/
def getNum (o : Option ℚ) : ℚ := o.getD 0

def addJsObj (t : NutritionTotals) (p : JsTotals) : NutritionTotals :=
  ⟨t.calories + getNum p.calories, t.protein + getNum p.protein,
   t.carbs + getNum p.carbs, t.fat + getNum p.fat, t.fiber + getNum p.fiber,
   t.sodium + getNum p.sodium, t.calcium + getNum p.calcium,
   t.iron + getNum p.iron, t.vitaminA + getNum p.vitaminA,
   t.vitaminC + getNum p.vitaminC, t.cost + getNum p.cost⟩

/-- One iteration of the meal-slot loop of `calculateDailyNutrition`:
a missing slot is skipped, a present one contributes its meal
nutrition. -/
def addSlot (db : List FoodItem) (acc : NutritionTotals)
    (slot : Option (List MealItem)) : NutritionTotals :=
  match slot with
  | none => acc
  | some items => addJsObj acc (calculateMealNutrition (some items) (some db))

/-- `calculateDailyNutrition(meals, foodDatabase)`: a null meal set
throws at the first `meals[mealType]` access and the catch returns
the same six-key object literal as the meal-level catch; a present
meal set sums the four slots and rounds every key again (a null food
database cannot throw here, because `calculateMealNutrition` catches
internally and `mealNutrition[key] || 0` absorbs absent keys). -/
def calculateDailyNutrition (meals : Option DayMealSet) (db : List FoodItem) : JsTotals :=
  match meals with
  | none => errTotals
  | some m =>
    toJsObj (roundAll (addSlot db (addSlot db (addSlot db (addSlot db zeroTotals
      m.breakfast) m.lunch) m.dinner) m.snacks))

/-- A family member as the report generator uses it: only the id. -/
structure FamilyMember where
  id : String

/-- One planned/consumed pair of parallel arrays of a report. -/
structure Series where
  planned : List ℚ
  consumed : List ℚ

/-- The report: date labels (dates are modelled at day granularity as
integers; the ISO string rendering is a bijective relabeling) and the
five tracked metrics. -/
structure Report where
  labels : List ℤ
  calories : Series
  protein : Series
  carbs : Series
  fat : Series
  cost : Series

/-- The empty report returned by the catch branch of
`generateNutritionReport`. -/
def emptyReport : Report := ⟨[], ⟨[], []⟩, ⟨[], []⟩, ⟨[], []⟩, ⟨[], []⟩, ⟨[], []⟩⟩

/-- The parsed contents of the three localStorage keys the report
path reads through `DataStore.getData` (localStorage itself is the
external persistence boundary; `none` models a missing or unparsable
key, for which getData returns null).  The meals and meal-plans
values are JSON objects keyed by "date_memberId" strings. -/
structure StoredData where
  meals : Option (String → Option DayMealSet)
  mealPlans : Option (String → Option DayMealSet)
  foodDatabase : Option (List FoodItem)

/-- The lookup key of the meals maps: a template literal joining the
date string and the member id with an underscore (dates at day
granularity are rendered by their integer label). -/
def storeKey (date : ℤ) (familyMemberId : String) : String :=
  toString date ++ "_" ++ familyMemberId

namespace DataStore

/-- `DataStore.getMeals`:
`(getData(MEALS) || {})[key] || {breakfast: [], lunch: [], dinner: [], snacks: []}`. -/
def getMeals (st : StoredData) (date : ℤ) (familyMemberId : String) : DayMealSet :=
  ((st.meals.getD (fun _ => none)) (storeKey date familyMemberId)).getD
    ⟨some [], some [], some [], some []⟩

/-- `DataStore.getMealPlans`: same shape over the meal-plans key. -/
def getMealPlans (st : StoredData) (date : ℤ) (familyMemberId : String) : DayMealSet :=
  ((st.mealPlans.getD (fun _ => none)) (storeKey date familyMemberId)).getD
    ⟨some [], some [], some [], some []⟩

/-- `DataStore.getFoodDatabase`: `getData(FOOD_DATABASE) || []`. -/
def getFoodDatabase (st : StoredData) : List FoodItem :=
  st.foodDatabase.getD []

end DataStore

inductive ReportType where
  | daily
  | weekly
  | monthly
deriving DecidableEq

/-- The date-range switch of `generateNutritionReport`, at day
granularity: daily is the single anchor date; weekly is the 7
consecutive dates from the anchor filtered to be at most today;
monthly is the same filter over the anchor month, whose first day and
length (a calendar computation of JS Date) are passed in. -/
def buildDates (rt : ReportType) (startDate today monthStart : ℤ)
    (monthDays : ℕ) : List ℤ :=
  match rt with
  | .daily => [startDate]
  | .weekly =>
    (List.range 7).filterMap
      (fun (i : ℕ) => if startDate + (i : ℤ) ≤ today then some (startDate + (i : ℤ)) else none)
  | .monthly =>
    (List.range monthDays).filterMap
      (fun (i : ℕ) => if monthStart + (i : ℤ) ≤ today then some (monthStart + (i : ℤ)) else none)

/-- The five tracked metrics of one report column. -/
structure Metrics where
  calories : ℚ
  protein : ℚ
  carbs : ℚ
  fat : ℚ
  cost : ℚ

def Metrics.zero : Metrics := ⟨0, 0, 0, 0, 0⟩

def Metrics.addM (a b : Metrics) : Metrics :=
  ⟨a.calories + b.calories, a.protein + b.protein, a.carbs + b.carbs,
   a.fat + b.fat, a.cost + b.cost⟩

/-- Reading the five tracked keys off a daily-nutrition object (both
possible return shapes of `calculateDailyNutrition` — the full object
and the six-key error literal — carry all five, so the plain property
reads of the report loop see these values). -/
def metricsOfJs (p : JsTotals) : Metrics :=
  ⟨getNum p.calories, getNum p.protein, getNum p.carbs, getNum p.fat, getNum p.cost⟩

/-- The (consumed, planned) metrics of one person on one date:
`DataStore.getMeals`/`getMealPlans` always return a meal-set object
(stored value or the empty-slot default), which is then aggregated
against `DataStore.getFoodDatabase`. -/
def dayPair (st : StoredData) (d : ℤ) (personId : String) : Metrics × Metrics :=
  (metricsOfJs (calculateDailyNutrition (some (DataStore.getMeals st d personId))
      (DataStore.getFoodDatabase st)),
   metricsOfJs (calculateDailyNutrition (some (DataStore.getMealPlans st d personId))
      (DataStore.getFoodDatabase st)))

/-- The per-date body of the report loop: for the "all" selector the
members are folded at the totals level, field by field, starting from
zero accumulators; otherwise the selected id is used directly. -/
def columnFor (store : StoredData) (familyMemberId : String)
    (members : List FamilyMember) (d : ℤ) : Metrics × Metrics :=
  if familyMemberId = "all" then
    members.foldl
      (fun acc mem =>
        let dm := dayPair store d mem.id
        (acc.1.addM dm.1, acc.2.addM dm.2))
      (Metrics.zero, Metrics.zero)
  else
    dayPair store d familyMemberId

/-- The report assembled over a date list: labels are the dates, each
metric array collects that date column, planned and consumed kept
index-aligned. -/
def reportOfDates (dates : List ℤ) (familyMemberId : String)
    (members : List FamilyMember) (store : StoredData) : Report :=
  { labels := dates
    calories := ⟨dates.map (fun d => (columnFor store familyMemberId members d).2.calories),
                 dates.map (fun d => (columnFor store familyMemberId members d).1.calories)⟩
    protein := ⟨dates.map (fun d => (columnFor store familyMemberId members d).2.protein),
                dates.map (fun d => (columnFor store familyMemberId members d).1.protein)⟩
    carbs := ⟨dates.map (fun d => (columnFor store familyMemberId members d).2.carbs),
              dates.map (fun d => (columnFor store familyMemberId members d).1.carbs)⟩
    fat := ⟨dates.map (fun d => (columnFor store familyMemberId members d).2.fat),
            dates.map (fun d => (columnFor store familyMemberId members d).1.fat)⟩
    cost := ⟨dates.map (fun d => (columnFor store familyMemberId members d).2.cost),
             dates.map (fun d => (columnFor store familyMemberId members d).1.cost)⟩ }

/-- `generateNutritionReport`.  A null family member list with the
"all" selector throws at the first date of the loop (`forEach` of
null) and the catch returns the empty report; with an empty date
range the loop never runs, so no error occurs. -/
def generateNutritionReport (rt : ReportType) (familyMemberId : String)
    (startDate today monthStart : ℤ) (monthDays : ℕ)
    (familyMembers : Option (List FamilyMember)) (store : StoredData) : Report :=
  let dates := buildDates rt startDate today monthStart monthDays
  match familyMembers with
  | some members => reportOfDates dates familyMemberId members store
  | none =>
    if familyMemberId = "all" ∧ dates ≠ [] then emptyReport
    else reportOfDates dates familyMemberId [] store

/-- Leap year rule of the Gregorian calendar, as JS Date implements it. -/
def isLeapYear (y : ℤ) : Bool :=
  (y % 4 == 0 && y % 100 != 0) || y % 400 == 0

/-- `new Date(year, month, 0).getDate()`: the day count of month `m`
(1 to 12) of year `y`. -/
def daysInMonth (y m : ℤ) : ℤ :=
  if m = 1 ∨ m = 3 ∨ m = 5 ∨ m = 7 ∨ m = 8 ∨ m = 10 ∨ m = 12 then 31
  else if m = 2 then (if isLeapYear y then 29 else 28)
  else 30

/-- The wall clock date (`new Date()`): year, 1-based month, day of
month (JS getDate, always at least 1 on a real clock). -/
structure ClockDate where
  year : ℤ
  month : ℤ
  day : ℤ

/-- The `daysPassed` divisor shared by the budget tracker averages:
today's day of month for the real current month, the full month
length otherwise. -/
def elapsedDaysFor (year month : ℤ) (now : ClockDate) : ℤ :=
  if year = now.year ∧ month = now.month then now.day
  else daysInMonth year month

/-- `calculateDailyAverage(totalSpent)` of the budget tracker, with
the YYYY-MM month selector already split into year and month. -/
def calculateDailyAverage (year month : ℤ) (now : ClockDate) (totalSpent : ℚ) : ℚ :=
  totalSpent / (elapsedDaysFor year month now : ℚ)

/-- `calculateEstimatedTotal(totalSpent)`: a non-current month returns
the spend unchanged; the current month extrapolates the daily average
over the remaining days. -/
def calculateEstimatedTotal (year month : ℤ) (now : ClockDate) (totalSpent : ℚ) : ℚ :=
  if ¬(year = now.year ∧ month = now.month) then totalSpent
  else
    totalSpent + (totalSpent / (now.day : ℚ)) * ((daysInMonth year month : ℚ) - (now.day : ℚ))

/-! ## Spec-side definitions used by refinement claims -/

/-- Modelled from the spec: pound to kilogram normalization. -/
def specNormalizeWeight (unit : String) (w : ℚ) : ℚ :=
  if unit = "lb" then w * 0.453592 else w

/-- Modelled from the spec: inch to centimeter normalization. -/
def specNormalizeHeight (unit : String) (h : ℚ) : ℚ :=
  if unit = "in" then h * 2.54 else h

/-- Modelled from the spec: the gender-branched Harris-Benedict
formula, rounded to the nearest integer. -/
def specHarrisBenedict (gender : String) (weightKg heightCm age : ℚ) : ℤ :=
  if jsToLower gender = "male" then
    jsRound (88.362 + 13.397 * weightKg + 4.799 * heightCm - 5.677 * age)
  else
    jsRound (447.593 + 9.247 * weightKg + 3.098 * heightCm - 4.330 * age)

/-! ## C1 -/

/-- C1 counterexample: with the gender absent,
`calculateDailyCalorieNeeds` does not return the claimed 2000 default
(it returns 0: `calculateBMR` catches the missing-data error itself
and returns 0, which TDEE scales to 0). -/
theorem dailyCalorieNeeds_missing_gender_ne_2000 :
    calculateDailyCalorieNeeds
      ⟨none, some 75, some 180, some 32, "kg", "cm", "MODERATE"⟩ ≠ 2000 := by
  simp only [calculateDailyCalorieNeeds, calculateBMR, calculateTDEE,
    truthyStr, truthyNum, activityMultiplier]
  norm_num [jsRound]

/-- C1 amended: a person record missing any of gender, weight, height
or age makes `calculateDailyCalorieNeeds` return 0, not 2000; the
missing-data error is recovered inside `calculateBMR` (which returns
0 after logging), no error escapes, and the 2000-returning catch of
`calculateDailyCalorieNeeds` never runs. -/
theorem dailyCalorieNeeds_missing_field_eq_zero (p : Person)
    (h : p.gender = none ∨ p.weight = none ∨ p.height = none ∨ p.age = none) :
    calculateDailyCalorieNeeds p = 0 := by
  have hb : calculateBMR p = 0 := by
    rcases h with h | h | h | h <;> simp [calculateBMR, truthyStr, truthyNum, h]
  simp only [calculateDailyCalorieNeeds, calculateTDEE, hb]
  norm_num [jsRound]

/-- C1 witness. -/
theorem dailyCalorieNeeds_missing_field_eq_zero_witness :
    calculateDailyCalorieNeeds
      ⟨none, some 75, some 180, some 32, "kg", "cm", "MODERATE"⟩ = 0 :=
  dailyCalorieNeeds_missing_field_eq_zero _ (Or.inl rfl)

/-! ## C2 -/

/-- C2 counterexample: for a male of 75 kg, 180 cm, age 32 the
Harris-Benedict value is 88.362 + 13.397·75 + 4.799·180 − 5.677·32 =
1775.293, which rounds to 1775, not the claimed 1780. -/
theorem bmr_male_example_ne_1780 :
    calculateBMR ⟨some "male", some 75, some 180, some 32, "kg", "cm", "MODERATE"⟩
      ≠ 1780 := by
  have hml : jsToLower "male" = "male" := rfl
  simp only [calculateBMR, truthyStr, truthyNum]
  norm_num [hml, jsRound, show ("male" : String) ≠ "" by decide,
    show ("kg" : String) ≠ "lb" by decide, show ("cm" : String) ≠ "in" by decide]

/-- C2 amended: for every person with gender, weight, height and age
present (and truthy), `calculateBMR` equals the gender-branched
Harris-Benedict formula of the spec applied to the lb→kg and in→cm
normalized measurements, rounded to the nearest integer; the male
75 kg / 180 cm / 32 y example evaluates to 1775 (see the witness). -/
theorem calculateBMR_eq_spec_formula (p : Person) (g : String) (w h a : ℚ)
    (hg : p.gender = some g) (hg0 : g ≠ "")
    (hw : p.weight = some w) (hw0 : w ≠ 0)
    (hh : p.height = some h) (hh0 : h ≠ 0)
    (ha : p.age = some a) (ha0 : a ≠ 0) :
    calculateBMR p =
      specHarrisBenedict g (specNormalizeWeight p.weightUnit w)
        (specNormalizeHeight p.heightUnit h) a := by
  simp [calculateBMR, specHarrisBenedict, specNormalizeWeight, specNormalizeHeight,
    truthyStr, truthyNum, hg, hw, hh, ha, hg0, hw0, hh0, ha0]
  split_ifs <;> rfl

/-- C2 witness: the spec formula and the code agree on the male
75 kg / 180 cm / 32 y example, both yielding 1775. -/
theorem calculateBMR_eq_spec_formula_witness :
    calculateBMR ⟨some "male", some 75, some 180, some 32, "kg", "cm", "MODERATE"⟩ =
      specHarrisBenedict "male" (specNormalizeWeight "kg" 75)
        (specNormalizeHeight "cm" 180) 32 ∧
    specHarrisBenedict "male" (specNormalizeWeight "kg" 75)
      (specNormalizeHeight "cm" 180) 32 = 1775 :=
  ⟨calculateBMR_eq_spec_formula _ "male" 75 180 32 rfl (by decide) rfl (by norm_num)
      rfl (by norm_num) rfl (by norm_num),
   by
    have hml : jsToLower "male" = "male" := rfl
    simp only [specHarrisBenedict, specNormalizeWeight, specNormalizeHeight]
    norm_num [hml, jsRound, show ("kg" : String) ≠ "lb" by decide,
      show ("cm" : String) ≠ "in" by decide]⟩

/-! ## C3 -/

/-- All eleven keys of the totals object are present. -/
def fullyFilled (p : JsTotals) : Prop :=
  p.calories.isSome ∧ p.protein.isSome ∧ p.carbs.isSome ∧ p.fat.isSome ∧
  p.fiber.isSome ∧ p.sodium.isSome ∧ p.calcium.isSome ∧ p.iron.isSome ∧
  p.vitaminA.isSome ∧ p.vitaminC.isSome ∧ p.cost.isSome

/-- C3 counterexample: the catch branch of `calculateMealNutrition`
(triggered here by a null food database and a nonempty entry list)
returns an object missing the sodium, calcium, iron, vitaminA and
vitaminC keys, so the claimed fully-typed zero-filled default is not
what the error branch yields. -/
theorem mealNutrition_error_default_not_fully_filled :
    ¬ fullyFilled (calculateMealNutrition (some [⟨JsId.num 1, none⟩]) none) := by
  unfold fullyFilled
  decide

/-- C3 amended: `generateNutritionReport` does return the empty report
(empty labels and all ten metric arrays empty) on internal failure,
but the catch branches of `calculateMealNutrition` (aggregateEntries,
reached here by a null food database with a nonempty entry list) and
`calculateDailyNutrition` (aggregateDay, reached by a null meal set)
both return the six-key object (calories, protein, carbs, fat, fiber,
cost zero-filled) with sodium, calcium, iron, vitaminA and vitaminC
absent, not the full ten-field NutritionTotals. -/
theorem error_defaults_shape :
    (∀ (rt : ReportType) (sd td ms : ℤ) (md : ℕ) (store : StoredData),
        buildDates rt sd td ms md ≠ [] →
        generateNutritionReport rt "all" sd td ms md none store = emptyReport) ∧
    (∀ items : List MealItem, items ≠ [] →
        calculateMealNutrition (some items) none = errTotals) ∧
    (∀ db : List FoodItem, calculateDailyNutrition none db = errTotals) ∧
    errTotals.calories = some 0 ∧ errTotals.protein = some 0 ∧
    errTotals.carbs = some 0 ∧ errTotals.fat = some 0 ∧
    errTotals.fiber = some 0 ∧ errTotals.cost = some 0 ∧
    errTotals.sodium = none ∧ errTotals.calcium = none ∧
    errTotals.iron = none ∧ errTotals.vitaminA = none ∧
    errTotals.vitaminC = none := by
  refine ⟨?_, ?_, fun _ => rfl, rfl, rfl, rfl, rfl, rfl, rfl, rfl, rfl, rfl, rfl, rfl⟩
  · intro rt sd td ms md store hne
    simp [generateNutritionReport, hne]
  · intro items hne
    simp [calculateMealNutrition, List.isEmpty_iff, hne]

/-- C3 witness. -/
theorem error_defaults_shape_witness :
    generateNutritionReport .daily "all" 0 0 0 0 none ⟨none, none, none⟩
      = emptyReport ∧
    calculateMealNutrition (some [⟨JsId.num 1, none⟩]) none = errTotals ∧
    calculateDailyNutrition none [] = errTotals :=
  ⟨error_defaults_shape.1 .daily 0 0 0 0 ⟨none, none, none⟩ (by decide),
   error_defaults_shape.2.1 _ (by decide),
   error_defaults_shape.2.2.1 []⟩

/-! ## C4 -/

def foodNonneg (f : FoodItem) : Prop :=
  0 ≤ f.calories ∧ 0 ≤ f.protein ∧ 0 ≤ f.carbs ∧ 0 ≤ f.fat ∧
  0 ≤ getNum f.fiber ∧ 0 ≤ getNum f.sodium ∧ 0 ≤ getNum f.calcium ∧
  0 ≤ getNum f.iron ∧ 0 ≤ getNum f.vitaminA ∧ 0 ≤ getNum f.vitaminC ∧
  0 ≤ getNum f.costPerServing

def catalogNonneg (db : List FoodItem) : Prop := ∀ f ∈ db, foodNonneg f

def totalsNonneg (t : NutritionTotals) : Prop :=
  0 ≤ t.calories ∧ 0 ≤ t.protein ∧ 0 ≤ t.carbs ∧ 0 ≤ t.fat ∧ 0 ≤ t.fiber ∧
  0 ≤ t.sodium ∧ 0 ≤ t.calcium ∧ 0 ≤ t.iron ∧ 0 ≤ t.vitaminA ∧
  0 ≤ t.vitaminC ∧ 0 ≤ t.cost

def jsTotalsNonneg (p : JsTotals) : Prop :=
  0 ≤ getNum p.calories ∧ 0 ≤ getNum p.protein ∧ 0 ≤ getNum p.carbs ∧
  0 ≤ getNum p.fat ∧ 0 ≤ getNum p.fiber ∧ 0 ≤ getNum p.sodium ∧
  0 ≤ getNum p.calcium ∧ 0 ≤ getNum p.iron ∧ 0 ≤ getNum p.vitaminA ∧
  0 ≤ getNum p.vitaminC ∧ 0 ≤ getNum p.cost

/-- Every entry list of every slot of a day has non-negative resolved
servings. -/
def slotServingsNonneg (slot : Option (List MealItem)) : Prop :=
  ∀ it ∈ slot.getD [], 0 ≤ resolveServings it.servings

theorem round1_nonneg {q : ℚ} (hq : 0 ≤ q) : 0 ≤ round1 q := by
  unfold round1 jsRound
  have h1 : (0 : ℤ) ≤ ⌊q * 10 + 1/2⌋ := by
    apply Int.le_floor.mpr
    push_cast
    linarith
  have h2 : (0 : ℚ) ≤ (⌊q * 10 + 1/2⌋ : ℚ) := by exact_mod_cast h1
  linarith

theorem roundAll_nonneg {t : NutritionTotals} (h : totalsNonneg t) :
    totalsNonneg (roundAll t) := by
  obtain ⟨h1, h2, h3, h4, h5, h6, h7, h8, h9, h10, h11⟩ := h
  exact ⟨round1_nonneg h1, round1_nonneg h2, round1_nonneg h3, round1_nonneg h4,
    round1_nonneg h5, round1_nonneg h6, round1_nonneg h7, round1_nonneg h8,
    round1_nonneg h9, round1_nonneg h10, round1_nonneg h11⟩

theorem microAdd_nonneg {o : Option ℚ} {s : ℚ} (ho : 0 ≤ getNum o) (hs : 0 ≤ s) :
    0 ≤ microAdd o s := by
  cases o with
  | none => simp [microAdd]
  | some v =>
    simp only [microAdd]
    split_ifs with hv
    · exact le_refl 0
    · exact mul_nonneg (by simpa [getNum] using ho) hs

theorem zeroTotals_nonneg : totalsNonneg zeroTotals := by
  simp [totalsNonneg, zeroTotals]

theorem addTotals_nonneg {a b : NutritionTotals} (ha : totalsNonneg a)
    (hb : totalsNonneg b) : totalsNonneg (addTotals a b) := by
  obtain ⟨a1, a2, a3, a4, a5, a6, a7, a8, a9, a10, a11⟩ := ha
  obtain ⟨b1, b2, b3, b4, b5, b6, b7, b8, b9, b10, b11⟩ := hb
  exact ⟨add_nonneg a1 b1, add_nonneg a2 b2, add_nonneg a3 b3, add_nonneg a4 b4,
    add_nonneg a5 b5, add_nonneg a6 b6, add_nonneg a7 b7, add_nonneg a8 b8,
    add_nonneg a9 b9, add_nonneg a10 b10, add_nonneg a11 b11⟩

theorem entryContribution_nonneg (db : List FoodItem) (it : MealItem)
    (hdb : catalogNonneg db) (hs : 0 ≤ resolveServings it.servings) :
    totalsNonneg (entryContribution db it) := by
  unfold entryContribution
  cases hf : findFood db it.foodId with
  | none => exact zeroTotals_nonneg
  | some food =>
    have hmem : food ∈ db := List.mem_of_find?_eq_some (by simpa [findFood] using hf)
    obtain ⟨f1, f2, f3, f4, f5, f6, f7, f8, f9, f10, f11⟩ := hdb food hmem
    exact ⟨mul_nonneg f1 hs, mul_nonneg f2 hs, mul_nonneg f3 hs, mul_nonneg f4 hs,
      microAdd_nonneg f5 hs, microAdd_nonneg f6 hs, microAdd_nonneg f7 hs,
      microAdd_nonneg f8 hs, microAdd_nonneg f9 hs, microAdd_nonneg f10 hs,
      microAdd_nonneg f11 hs⟩

theorem foldl_contribution_nonneg (db : List FoodItem) (hdb : catalogNonneg db) :
    ∀ (items : List MealItem) (acc : NutritionTotals), totalsNonneg acc →
      (∀ it ∈ items, 0 ≤ resolveServings it.servings) →
      totalsNonneg (items.foldl (fun a it => addTotals a (entryContribution db it)) acc)
  | [], _, hacc, _ => hacc
  | x :: xs, acc, hacc, hits => by
    simp only [List.foldl_cons]
    exact foldl_contribution_nonneg db hdb xs _
      (addTotals_nonneg hacc
        (entryContribution_nonneg db x hdb (hits x (by simp))))
      (fun it h => hits it (by simp [h]))

theorem toJsObj_nonneg {t : NutritionTotals} (h : totalsNonneg t) :
    jsTotalsNonneg (toJsObj t) := by
  obtain ⟨h1, h2, h3, h4, h5, h6, h7, h8, h9, h10, h11⟩ := h
  exact ⟨h1, h2, h3, h4, h5, h6, h7, h8, h9, h10, h11⟩

theorem mealNutrition_nonneg (items : List MealItem) (db : List FoodItem)
    (hdb : catalogNonneg db)
    (hits : ∀ it ∈ items, 0 ≤ resolveServings it.servings) :
    jsTotalsNonneg (calculateMealNutrition (some items) (some db)) := by
  have hrw : calculateMealNutrition (some items) (some db)
      = if items.isEmpty then toJsObj zeroTotals
        else toJsObj (roundAll (aggregateEntriesRaw items db)) := rfl
  rw [hrw]
  split
  · exact toJsObj_nonneg zeroTotals_nonneg
  · exact toJsObj_nonneg (roundAll_nonneg
      (foldl_contribution_nonneg db hdb items zeroTotals zeroTotals_nonneg hits))

theorem addJsObj_nonneg {t : NutritionTotals} {p : JsTotals}
    (ht : totalsNonneg t) (hp : jsTotalsNonneg p) : totalsNonneg (addJsObj t p) := by
  obtain ⟨a1, a2, a3, a4, a5, a6, a7, a8, a9, a10, a11⟩ := ht
  obtain ⟨b1, b2, b3, b4, b5, b6, b7, b8, b9, b10, b11⟩ := hp
  exact ⟨add_nonneg a1 b1, add_nonneg a2 b2, add_nonneg a3 b3, add_nonneg a4 b4,
    add_nonneg a5 b5, add_nonneg a6 b6, add_nonneg a7 b7, add_nonneg a8 b8,
    add_nonneg a9 b9, add_nonneg a10 b10, add_nonneg a11 b11⟩

theorem addSlot_nonneg {db : List FoodItem} {acc : NutritionTotals}
    {slot : Option (List MealItem)} (hdb : catalogNonneg db)
    (hacc : totalsNonneg acc) (hslot : slotServingsNonneg slot) :
    totalsNonneg (addSlot db acc slot) := by
  cases slot with
  | none => exact hacc
  | some items =>
    exact addJsObj_nonneg hacc
      (mealNutrition_nonneg items db hdb (by simpa [slotServingsNonneg] using hslot))

/-- C4 counterexample: `parseFloat(servings) || 1` lets a negative
servings value through unchanged, so the effective servings is not
resolved to a positive number, and the aggregated calories go
negative: one entry with servings −2 on a food with calories 150
yields −300. -/
theorem mealNutrition_negative_servings_counterexample :
    resolveServings (some (-2)) = -2 ∧
    (calculateMealNutrition (some [⟨JsId.num 1, some (-2)⟩])
        (some [⟨JsId.num 1, 150, 10, 20, 5, none, none, none, none, none, none, none⟩])).calories
      = some (-300) ∧ ((-300 : ℚ) < 0) := by
  have hf : findFood
      [(⟨JsId.num 1, 150, 10, 20, 5, none, none, none, none, none, none, none⟩ : FoodItem)]
      (JsId.num 1)
      = some ⟨JsId.num 1, 150, 10, 20, 5, none, none, none, none, none, none, none⟩ := rfl
  refine ⟨by norm_num [resolveServings], ?_, by norm_num⟩
  simp only [calculateMealNutrition, aggregateEntriesRaw, List.foldl_cons,
    List.foldl_nil, entryContribution, hf, List.isEmpty_cons, toJsObj, roundAll,
    addTotals, zeroTotals]
  norm_num [resolveServings, round1, jsRound, microAdd]

/-- C4 amended: absent and unparsable and zero servings resolve to 1,
but a negative parsed servings value is used as is; every field of
the totals returned by `calculateMealNutrition` (aggregateEntries)
and `calculateDailyNutrition` (aggregateDay) is non-negative provided
the catalog fields are non-negative and no entry has a negative
resolved servings. -/
theorem aggregate_nonneg_of_nonneg_servings :
    (resolveServings none = 1 ∧ resolveServings (some 0) = 1) ∧
    (∀ (items : List MealItem) (db : List FoodItem), catalogNonneg db →
        (∀ it ∈ items, 0 ≤ resolveServings it.servings) →
        jsTotalsNonneg (calculateMealNutrition (some items) (some db))) ∧
    (∀ (meals : DayMealSet) (db : List FoodItem), catalogNonneg db →
        slotServingsNonneg meals.breakfast → slotServingsNonneg meals.lunch →
        slotServingsNonneg meals.dinner → slotServingsNonneg meals.snacks →
        jsTotalsNonneg (calculateDailyNutrition (some meals) db)) := by
  refine ⟨⟨rfl, by norm_num [resolveServings]⟩, mealNutrition_nonneg, ?_⟩
  intro meals db hdb hb hl hd hs
  have hrw : calculateDailyNutrition (some meals) db
      = toJsObj (roundAll (addSlot db (addSlot db (addSlot db (addSlot db zeroTotals
          meals.breakfast) meals.lunch) meals.dinner) meals.snacks)) := rfl
  rw [hrw]
  exact toJsObj_nonneg (roundAll_nonneg (addSlot_nonneg hdb (addSlot_nonneg hdb
    (addSlot_nonneg hdb (addSlot_nonneg hdb zeroTotals_nonneg hb) hl) hd) hs))

/-- C4 witness. -/
theorem aggregate_nonneg_witness :
    jsTotalsNonneg (calculateMealNutrition
      (some [⟨JsId.num 1, some 2⟩])
      (some [⟨JsId.num 1, 150, 10, 20, 5, none, none, none, none, none, none, none⟩])) :=
  aggregate_nonneg_of_nonneg_servings.2.1 _ _
    (by
      intro f hf
      simp only [List.mem_singleton] at hf
      subst hf
      refine ⟨by norm_num, by norm_num, by norm_num, by norm_num, ?_, ?_, ?_, ?_, ?_, ?_, ?_⟩ <;>
        simp [getNum])
    (by
      intro it hit
      simp only [List.mem_singleton] at hit
      subst hit
      norm_num [resolveServings])

/-! ## C5 and C6: algebra of the accumulation loop -/

theorem addTotals_zero (t : NutritionTotals) : addTotals t zeroTotals = t := by
  cases t
  simp [addTotals, zeroTotals]

theorem zero_addTotals (t : NutritionTotals) : addTotals zeroTotals t = t := by
  cases t
  simp [addTotals, zeroTotals]

theorem addTotals_assoc (a b c : NutritionTotals) :
    addTotals (addTotals a b) c = addTotals a (addTotals b c) := by
  simp [addTotals, add_assoc]

theorem foldl_addTotals_eq (db : List FoodItem) :
    ∀ (l : List MealItem) (acc : NutritionTotals),
      l.foldl (fun a it => addTotals a (entryContribution db it)) acc
        = addTotals acc (aggregateEntriesRaw l db)
  | [], acc => by
    simp [aggregateEntriesRaw, addTotals_zero]
  | x :: xs, acc => by
    simp only [aggregateEntriesRaw, List.foldl_cons]
    rw [foldl_addTotals_eq db xs (addTotals acc (entryContribution db x)),
      foldl_addTotals_eq db xs (addTotals zeroTotals (entryContribution db x)),
      zero_addTotals, addTotals_assoc]

theorem aggregateEntriesRaw_cons (x : MealItem) (xs : List MealItem)
    (db : List FoodItem) :
    aggregateEntriesRaw (x :: xs) db
      = addTotals (entryContribution db x) (aggregateEntriesRaw xs db) := by
  simp only [aggregateEntriesRaw, List.foldl_cons]
  rw [foldl_addTotals_eq db xs, zero_addTotals]
  rfl

/-- C5: an entry whose food id matches nothing in the catalog (under
the string-coerced comparison of `findFood`) contributes nothing:
aggregating [A, unknown, B] equals aggregating [A, B]. -/
theorem aggregate_skips_unknown_foodId (db : List FoodItem) (A u B : MealItem)
    (h : findFood db u.foodId = none) :
    calculateMealNutrition (some [A, u, B]) (some db)
      = calculateMealNutrition (some [A, B]) (some db) := by
  have hu : entryContribution db u = zeroTotals := by
    simp [entryContribution, h]
  have h3 : aggregateEntriesRaw [A, u, B] db = aggregateEntriesRaw [A, B] db := by
    simp [aggregateEntriesRaw_cons, hu, zero_addTotals]
  have e1 : calculateMealNutrition (some [A, u, B]) (some db)
      = toJsObj (roundAll (aggregateEntriesRaw [A, u, B] db)) := rfl
  have e2 : calculateMealNutrition (some [A, B]) (some db)
      = toJsObj (roundAll (aggregateEntriesRaw [A, B] db)) := rfl
  rw [e1, e2, h3]

/-- C5 witness: the middle entry has id "99" which matches nothing
(the only catalog id is numeric 1, whose string form is "1"). -/
theorem aggregate_skips_unknown_foodId_witness :
    calculateMealNutrition
        (some [⟨JsId.num 1, some 1⟩, ⟨JsId.str "99", none⟩, ⟨JsId.num 1, some 2⟩])
        (some [⟨JsId.num 1, 150, 10, 20, 5, none, none, none, none, none, none, some 2.5⟩])
      = calculateMealNutrition
        (some [⟨JsId.num 1, some 1⟩, ⟨JsId.num 1, some 2⟩])
        (some [⟨JsId.num 1, 150, 10, 20, 5, none, none, none, none, none, none, some 2.5⟩]) :=
  aggregate_skips_unknown_foodId _ _ _ _ (by decide)

theorem microAdd_eq_getNum_mul (o : Option ℚ) (s : ℚ) :
    microAdd o s = getNum o * s := by
  cases o with
  | none => simp [microAdd, getNum]
  | some v =>
    simp only [microAdd, getNum, Option.getD_some]
    split_ifs with h
    · simp [h]
    · rfl

/-- Modelled from the spec words: the per-entry contribution — every
nutrient and cost field of the matched FoodItem (optionals
zero-filled) times the entry resolved servings; an entry with no
match contributes nothing. -/
def specContribution (catalog : List FoodItem) (it : MealItem) : NutritionTotals :=
  match findFood catalog it.foodId with
  | none => zeroTotals
  | some f =>
    let s := resolveServings it.servings
    ⟨f.calories * s, f.protein * s, f.carbs * s, f.fat * s,
     getNum f.fiber * s, getNum f.sodium * s, getNum f.calcium * s,
     getNum f.iron * s, getNum f.vitaminA * s, getNum f.vitaminC * s,
     getNum f.costPerServing * s⟩

def sumTotals (l : List NutritionTotals) : NutritionTotals :=
  l.foldr addTotals zeroTotals

/-- Modelled from the spec words: accumulate the per-entry
contributions, then round all fields to one decimal once at the end. -/
def specAggregateEntries (entries : List MealItem) (catalog : List FoodItem) :
    NutritionTotals :=
  roundAll (sumTotals (entries.map (specContribution catalog)))

theorem entryContribution_eq_spec (catalog : List FoodItem) (it : MealItem) :
    entryContribution catalog it = specContribution catalog it := by
  unfold entryContribution specContribution
  cases findFood catalog it.foodId with
  | none => rfl
  | some f => simp [microAdd_eq_getNum_mul]

theorem raw_eq_spec_sum (catalog : List FoodItem) :
    ∀ entries : List MealItem,
      aggregateEntriesRaw entries catalog
        = sumTotals (entries.map (specContribution catalog))
  | [] => rfl
  | x :: xs => by
    rw [aggregateEntriesRaw_cons, raw_eq_spec_sum catalog xs,
      entryContribution_eq_spec]
    rfl

/-- C6: when the entries resolve in the catalog,
`calculateMealNutrition` equals the spec-side aggregation: per-entry
field-times-servings contributions accumulated unrounded, every field
rounded to one decimal once at the end. -/
theorem aggregateEntries_eq_spec_rounded_once (entries : List MealItem)
    (catalog : List FoodItem)
    (hres : ∀ it ∈ entries, (findFood catalog it.foodId).isSome) :
    calculateMealNutrition (some entries) (some catalog)
      = toJsObj (specAggregateEntries entries catalog) := by
  cases entries with
  | nil =>
    have h0 : round1 0 = 0 := by norm_num [round1, jsRound]
    show toJsObj zeroTotals = toJsObj (specAggregateEntries [] catalog)
    simp [specAggregateEntries, sumTotals, roundAll, zeroTotals, h0]
  | cons x xs =>
    have e1 : calculateMealNutrition (some (x :: xs)) (some catalog)
        = toJsObj (roundAll (aggregateEntriesRaw (x :: xs) catalog)) := rfl
    rw [e1, raw_eq_spec_sum]
    rfl

/-- C6 witness: one entry with servings 2 on a food with calories 150
yields calories 300 after the single final rounding. -/
theorem aggregateEntries_eq_spec_witness :
    (calculateMealNutrition (some [⟨JsId.num 7, some 2⟩])
        (some [⟨JsId.num 7, 150, 10, 20, 5, none, none, none, none, none, none, some 2.5⟩])).calories
      = some 300 := by
  have hf : findFood
      [(⟨JsId.num 7, 150, 10, 20, 5, none, none, none, none, none, none, some 2.5⟩ : FoodItem)]
      (JsId.num 7)
      = some ⟨JsId.num 7, 150, 10, 20, 5, none, none, none, none, none, none, some 2.5⟩ := rfl
  rw [aggregateEntries_eq_spec_rounded_once
    [⟨JsId.num 7, some 2⟩]
    [⟨JsId.num 7, 150, 10, 20, 5, none, none, none, none, none, none, some 2.5⟩]
    (by decide)]
  simp only [specAggregateEntries, specContribution, sumTotals, List.map_cons,
    List.map_nil, List.foldr_cons, List.foldr_nil, hf, roundAll, addTotals,
    zeroTotals, toJsObj]
  norm_num [resolveServings, round1, jsRound, getNum]

/-! ## C7 and C8: report algebra -/

def Series.addS (a b : Series) : Series :=
  ⟨List.zipWith (· + ·) a.planned b.planned,
   List.zipWith (· + ·) a.consumed b.consumed⟩

/-- Field-by-field sum of two reports (labels kept from the first). -/
def Report.addR (r s : Report) : Report :=
  ⟨r.labels, r.calories.addS s.calories, r.protein.addS s.protein,
   r.carbs.addS s.carbs, r.fat.addS s.fat, r.cost.addS s.cost⟩

/-- A one-date report column as a report. -/
def pairReport (d : ℤ) (cp : Metrics × Metrics) : Report :=
  ⟨[d], ⟨[cp.2.calories], [cp.1.calories]⟩, ⟨[cp.2.protein], [cp.1.protein]⟩,
   ⟨[cp.2.carbs], [cp.1.carbs]⟩, ⟨[cp.2.fat], [cp.1.fat]⟩,
   ⟨[cp.2.cost], [cp.1.cost]⟩⟩

/-- The all-zero one-date report, neutral for the field-by-field sum. -/
def zeroDailyReport (d : ℤ) : Report := pairReport d (Metrics.zero, Metrics.zero)

theorem zero_addM (x : Metrics) : Metrics.zero.addM x = x := by
  cases x
  simp [Metrics.addM, Metrics.zero]

theorem columnFor_single (store : StoredData) (p : FamilyMember) (d : ℤ) :
    columnFor store p.id [p] d = dayPair store d p.id := by
  unfold columnFor
  split_ifs with h
  · simp only [List.foldl_cons, List.foldl_nil]
    rw [zero_addM, zero_addM]
  · rfl

theorem addR_pairReport (d : ℤ) (a b : Metrics × Metrics) :
    Report.addR (pairReport d a) (pairReport d b)
      = pairReport d (a.1.addM b.1, a.2.addM b.2) := rfl

theorem foldl_report_hom (store : StoredData) (d : ℤ) :
    ∀ (members : List FamilyMember) (cp : Metrics × Metrics),
      members.foldl
        (fun acc p => Report.addR acc (pairReport d (dayPair store d p.id)))
        (pairReport d cp)
      = pairReport d (members.foldl
          (fun acc mem =>
            ((acc.1.addM (dayPair store d mem.id).1),
             (acc.2.addM (dayPair store d mem.id).2))) cp)
  | [], _ => rfl
  | m :: ms, cp => by
    simp only [List.foldl_cons]
    rw [addR_pairReport]
    exact foldl_report_hom store d ms _

/-- C7: the daily report for the "all" selector equals the
field-by-field sum over the people of the daily report generated for
each person alone; the summation happens at the totals level for
every planned and consumed metric array. -/
theorem daily_report_all_eq_sum_of_individual (store : StoredData)
    (members : List FamilyMember) (D today ms : ℤ) (md : ℕ) :
    generateNutritionReport .daily "all" D today ms md (some members) store
      = members.foldl
          (fun acc p =>
            Report.addR acc
              (generateNutritionReport .daily p.id D today ms md (some [p]) store))
          (zeroDailyReport D) := by
  have hL : generateNutritionReport .daily "all" D today ms md (some members) store
      = pairReport D (columnFor store "all" members D) := rfl
  have hstep : (fun (acc : Report) (p : FamilyMember) =>
        Report.addR acc
          (generateNutritionReport .daily p.id D today ms md (some [p]) store))
      = fun acc p => Report.addR acc (pairReport D (dayPair store D p.id)) := by
    funext acc p
    have hind : generateNutritionReport .daily p.id D today ms md (some [p]) store
        = pairReport D (columnFor store p.id [p] D) := rfl
    rw [hind, columnFor_single]
  have hcol : columnFor store "all" members D
      = members.foldl
          (fun acc mem =>
            ((acc.1.addM (dayPair store D mem.id).1),
             (acc.2.addM (dayPair store D mem.id).2)))
          (Metrics.zero, Metrics.zero) := by
    unfold columnFor
    rw [if_pos rfl]
  rw [hL, hstep, hcol]
  exact (foldl_report_hom store D members (Metrics.zero, Metrics.zero)).symm

/-- C8: the weekly report labels never exceed today, and when the
whole anchored week lies in the past exactly the 7 consecutive dates
from the anchor are produced. -/
theorem weekly_labels_truncated_to_today (sel : String) (sd td ms : ℤ) (md : ℕ)
    (members : List FamilyMember) (store : StoredData) :
    (∀ d ∈ (generateNutritionReport .weekly sel sd td ms md (some members) store).labels,
        d ≤ td) ∧
    (sd + 6 ≤ td →
      (generateNutritionReport .weekly sel sd td ms md (some members) store).labels
        = [sd, sd + 1, sd + 2, sd + 3, sd + 4, sd + 5, sd + 6]) := by
  have hlab : (generateNutritionReport .weekly sel sd td ms md (some members) store).labels
      = (List.range 7).filterMap
          (fun (i : ℕ) => if sd + (i : ℤ) ≤ td then some (sd + (i : ℤ)) else none) := rfl
  constructor
  · intro d hd
    rw [hlab] at hd
    simp only [List.mem_filterMap, List.mem_range] at hd
    obtain ⟨i, _, hif⟩ := hd
    by_cases hle : sd + (i : ℤ) ≤ td
    · rw [if_pos hle] at hif
      cases hif
      exact hle
    · rw [if_neg hle] at hif
      cases hif
  · intro h
    rw [hlab, show List.range 7 = [0, 1, 2, 3, 4, 5, 6] from rfl]
    have hcong : ∀ i ∈ ([0, 1, 2, 3, 4, 5, 6] : List ℕ),
        (if sd + (i : ℤ) ≤ td then some (sd + (i : ℤ)) else none)
          = some (sd + (i : ℤ)) := by
      intro i hi
      simp only [List.mem_cons, List.not_mem_nil, or_false] at hi
      rcases hi with rfl | rfl | rfl | rfl | rfl | rfl | rfl <;>
        (rw [if_pos]; push_cast; omega)
    rw [List.filterMap_congr hcong]
    simp

/-- C8 witness: anchor 0, today 10 — the whole week is in the past
and the seven consecutive dates come out. -/
theorem weekly_labels_witness :
    (generateNutritionReport .weekly "m1" 0 10 0 0 (some [])
        ⟨none, none, none⟩).labels
      = [0, 1, 2, 3, 4, 5, 6] := by
  have h := (weekly_labels_truncated_to_today "m1" 0 10 0 0 []
    ⟨none, none, none⟩).2 (by norm_num)
  simpa using h

/-! ## C9 and C10: budget projection -/

/-- C9: `calculateEstimatedTotal` returns the spend unchanged for any
month other than the real current month, and for the current month on
day d of an n-day month returns spend·n/d (the daily average
extrapolated over the whole month). -/
theorem estimatedTotal_spec (y m : ℤ) (now : ClockDate) (s : ℚ)
    (hd : 1 ≤ now.day) :
    (¬(y = now.year ∧ m = now.month) → calculateEstimatedTotal y m now s = s) ∧
    (y = now.year → m = now.month →
      calculateEstimatedTotal y m now s
        = s * (daysInMonth y m : ℚ) / (now.day : ℚ)) := by
  constructor
  · intro h
    simp [calculateEstimatedTotal, h]
  · intro hy hm
    have hdne : ((now.day : ℚ)) ≠ 0 := by
      have h0 : (0 : ℤ) < now.day := by omega
      exact_mod_cast h0.ne'
    unfold calculateEstimatedTotal
    rw [if_neg (not_not_intro ⟨hy, hm⟩)]
    field_simp
    ring

/-- C9 witness: for a selected month of May 2025 — once with the
clock in June (unchanged), once with the clock on May 10 (31-day
month extrapolation). -/
theorem estimatedTotal_spec_witness :
    calculateEstimatedTotal 2025 5 ⟨2025, 6, 10⟩ 100 = 100 ∧
    calculateEstimatedTotal 2025 5 ⟨2025, 5, 10⟩ 100
      = 100 * (daysInMonth 2025 5 : ℚ) / ((10 : ℤ) : ℚ) :=
  ⟨(estimatedTotal_spec 2025 5 ⟨2025, 6, 10⟩ 100 (by norm_num)).1 (by norm_num),
   (estimatedTotal_spec 2025 5 ⟨2025, 5, 10⟩ 100 (by norm_num)).2 rfl rfl⟩

/-- C10: the elapsed-days divisor shared by `calculateDailyAverage`
and `calculateEstimatedTotal` is at least 1 (today's day of month for
the current month, the month length otherwise), so the division is by
a nonzero number and multiplying back recovers the spend. -/
theorem elapsed_days_positive (y m : ℤ) (now : ClockDate) (s : ℚ)
    (hm1 : 1 ≤ m) (hm2 : m ≤ 12) (hd : 1 ≤ now.day) :
    1 ≤ elapsedDaysFor y m now ∧
    ((elapsedDaysFor y m now : ℚ) ≠ 0) ∧
    calculateDailyAverage y m now s * (elapsedDaysFor y m now : ℚ) = s ∧
    (y = now.year ∧ m = now.month → elapsedDaysFor y m now = now.day) := by
  have h1 : 1 ≤ elapsedDaysFor y m now := by
    unfold elapsedDaysFor
    split_ifs with h
    · exact hd
    · unfold daysInMonth
      split_ifs <;> omega
  have h2 : ((elapsedDaysFor y m now : ℚ)) ≠ 0 := by
    have h0 : (0 : ℤ) < elapsedDaysFor y m now := by omega
    exact_mod_cast h0.ne'
  refine ⟨h1, h2, ?_, ?_⟩
  · unfold calculateDailyAverage
    exact div_mul_cancel₀ s h2
  · intro h
    unfold elapsedDaysFor
    rw [if_pos h]

/-- C10 witness: May 2025 with the clock on May 10. -/
theorem elapsed_days_positive_witness :
    1 ≤ elapsedDaysFor 2025 5 ⟨2025, 5, 10⟩ ∧
    ((elapsedDaysFor 2025 5 ⟨2025, 5, 10⟩ : ℚ) ≠ 0) ∧
    calculateDailyAverage 2025 5 ⟨2025, 5, 10⟩ 310
        * (elapsedDaysFor 2025 5 ⟨2025, 5, 10⟩ : ℚ) = 310 ∧
    ((2025 : ℤ) = 2025 ∧ (5 : ℤ) = 5 → elapsedDaysFor 2025 5 ⟨2025, 5, 10⟩ = 10) :=
  elapsed_days_positive 2025 5 ⟨2025, 5, 10⟩ 310
    (by norm_num) (by norm_num) (by norm_num)

end MealPrep
